import Mathlib

/-!
Shallow embedding of the attribute-marshalling layer of libiproute2:
the FOU command grammar (src/ip/ipfou.c) and the bridge-port command
grammar and renderers (src/ip/iplink_bridge_slave.c).

Machine integers are modelled as `Nat` with explicit bounds where they
matter; the netlink message buffer is modelled as the list of attribute
records appended to it; error paths that terminate the process (invarg,
usage, incomplete_command all end in iprt_exit) are modelled as an
`abort` outcome, while plain `return -1` paths are a `fail` outcome
carrying the untouched buffer.
-/

namespace Spec2Proof

/-- Character-list prefix test used to model the keyword matcher. -/
def isPrefixOfChars : List Char → List Char → Bool
  | [], _ => true
  | _ :: _, [] => false
  | c :: cs, d :: ds => c == d && isPrefixOfChars cs ds

/-- Modelled from the spec: the keyword abbreviation matcher `matchesTok`
from lib/utils.c is not under src/. Per the grammar-engine description
(each iteration consumes one keyword token), `matchesTok cmd pattern` is
true when `cmd` is a (possibly empty) prefix of `pattern`; the C
function returns 0 in exactly that case. -/
def matchesTok (cmd pattern : String) : Bool :=
  isPrefixOfChars cmd.data pattern.data

/-- Value of one character as a digit, accepting 0-9, a-f, A-F. -/
def digitVal (c : Char) : Option Nat :=
  if '0' ≤ c && c ≤ '9' then some (c.toNat - 48)
  else if 'a' ≤ c && c ≤ 'f' then some (c.toNat - 87)
  else if 'A' ≤ c && c ≤ 'F' then some (c.toNat - 55)
  else none

/-- Fold a digit string in the given base; any non-digit makes the
whole conversion fail (strtoul would stop early, and the get_* helpers
reject a partially consumed token). -/
def digitsVal (base : Nat) : List Char → Nat → Option Nat
  | [], acc => some acc
  | c :: cs, acc =>
    match digitVal c with
    | some d => if d < base then digitsVal base cs (acc * base + d) else none
    | none => none

/-- Modelled from the spec: numeric token conversion (strtoul with
base 0, as used by get_u8/get_u16/get_u32 in lib/utils.c, not under
src/). A 0x/0X prefix selects hexadecimal, a leading 0 octal,
otherwise decimal; an empty or malformed token fails. -/
def strtoul0 (s : String) : Option Nat :=
  match s.data with
  | [] => none
  | '0' :: 'x' :: ds => if ds = [] then none else digitsVal 16 ds 0
  | '0' :: 'X' :: ds => if ds = [] then none else digitsVal 16 ds 0
  | '0' :: ds => digitsVal 8 ds 0
  | ds => digitsVal 10 ds 0

/-- Modelled from the spec: get_u8 from lib/utils.c: numeric token in
0..255, failure otherwise. -/
def get_u8 (s : String) : Option Nat :=
  match strtoul0 s with
  | some v => if v ≤ 255 then some v else none
  | none => none

/-- Modelled from the spec: get_u16 from lib/utils.c: numeric token in
0..65535, failure otherwise. -/
def get_u16 (s : String) : Option Nat :=
  match strtoul0 s with
  | some v => if v ≤ 65535 then some v else none
  | none => none

/-- Modelled from the spec: get_u32 from lib/utils.c: numeric token in
0..2^32-1, failure otherwise. -/
def get_u32 (s : String) : Option Nat :=
  match strtoul0 s with
  | some v => if v ≤ 4294967295 then some v else none
  | none => none

/-- Host-to-network byte swap of a 16-bit value, as htons performs on
the little-endian host: the encode direction of the port codec. -/
def htons16 (v : Nat) : Nat := (v % 256) * 256 + (v / 256) % 256

/-- Network-to-host byte swap of a 16-bit value, as ntohs performs on
the display path: the decode direction of the port codec. -/
def ntohs16 (v : Nat) : Nat := (v % 256) * 256 + (v / 256) % 256

/-- Modelled from the spec: get_be16 from lib/utils.c parses with
get_u16 and stores the value converted by htons. -/
def get_be16 (s : String) : Option Nat :=
  (get_u16 s).map htons16

/-! Wire-contract constants (linux/fou.h, linux/if_bridge.h,
linux/if_link.h, sys/socket.h). -/

def FOU_ATTR_PORT : Nat := 1
def FOU_ATTR_AF : Nat := 2
def FOU_ATTR_IPPROTO : Nat := 3
def FOU_ATTR_TYPE : Nat := 4
def FOU_ENCAP_DIRECT : Nat := 1
def FOU_ENCAP_GUE : Nat := 2
def AF_INET : Nat := 2
def AF_INET6 : Nat := 10

def IFLA_BRPORT_STATE : Nat := 1
def IFLA_BRPORT_PRIORITY : Nat := 2
def IFLA_BRPORT_COST : Nat := 3
def IFLA_BRPORT_MODE : Nat := 4
def IFLA_BRPORT_GUARD : Nat := 5
def IFLA_BRPORT_PROTECT : Nat := 6
def IFLA_BRPORT_FAST_LEAVE : Nat := 7
def IFLA_BRPORT_LEARNING : Nat := 8
def IFLA_BRPORT_UNICAST_FLOOD : Nat := 9
def IFLA_BRPORT_PROXYARP : Nat := 10
def IFLA_BRPORT_PROXYARP_WIFI : Nat := 12
def IFLA_BRPORT_FLUSH : Nat := 24
def IFLA_BRPORT_MULTICAST_ROUTER : Nat := 25
def IFLA_BRPORT_MCAST_FLOOD : Nat := 27
def IFLA_BRPORT_VLAN_TUNNEL : Nat := 29
def IFLA_BRPORT_GROUP_FWD_MASK : Nat := 31
def IFLA_BRPORT_NEIGH_SUPPRESS : Nat := 32
def BR_STATE_BLOCKING : Nat := 4

/-- Modelled from the spec: one attribute record appended to the
message buffer by the Attribute Codec (addattr8/addattr16/addattr32
append a typed scalar, addattr appends an empty marker). -/
inductive Attr
  | a8 (ty val : Nat)
  | a16 (ty val : Nat)
  | a32 (ty val : Nat)
  | flag (ty : Nat)
deriving Repr, DecidableEq

/-- Modelled from the spec: the process-terminating error paths of the
UsageError taxonomy. invarg prints the message and offending argument
and exits; incomplete_command (NEXT_ARG with no token left) exits;
usage help printing ends in iprt_exit. -/
inductive Err
  | invarg (msg arg : String)
  | incomplete
  | usage (tok : String)
deriving Repr, DecidableEq

/-- Outcome of a parse function returning a C int while mutating the
message buffer: `ok` is return 0, `fail` is a plain return -1 (the
buffer at that moment is carried), `abort` is process termination
inside a helper. -/
inductive ParseOutcome
  | ok (n : List Attr)
  | fail (n : List Attr)
  | abort (e : Err)
deriving Repr, DecidableEq

/-- Local state of the scanning loop of fou_parse_opt
(src/ip/ipfou.c:51-56): `port` holds the network-order value stored by
get_be16. -/
structure FouSt where
  port : Nat
  port_set : Bool
  ipproto : Nat
  ipproto_set : Bool
  gue_set : Bool
  family : Nat
deriving Repr, DecidableEq

/-- Initial locals of fou_parse_opt: flags clear, family AF_INET. -/
def fouInit : FouSt := ⟨0, false, 0, false, false, AF_INET⟩

/-- Result of the token-scanning loop of fou_parse_opt: either the
loop finishes with the final locals, or an invarg/usage/NEXT_ARG
error terminates the process. -/
inductive FouScanRes
  | done (st : FouSt)
  | abort (e : Err)
deriving Repr, DecidableEq

/-- The token-scanning loop of fou_parse_opt (src/ip/ipfou.c:58-87).
`db` is the getprotobyname oracle (protocol-name table, out of scope
per the spec); its result is truncated to 8 bits as the C assignment
to __u8 does. The loop only updates locals; no attribute is appended
here. -/
def fou_scan (db : String → Option Nat) : List String → FouSt → FouScanRes
  | [], st => .done st
  | tok :: rest, st =>
    if matchesTok tok "port" then
      match rest with
      | [] => .abort Err.incomplete
      | v :: rest2 =>
        match get_be16 v with
        | none => .abort (Err.invarg "invalid port" v)
        | some p =>
          if p = 0 then .abort (Err.invarg "invalid port" v)
          else fou_scan db rest2 { st with port := p, port_set := true }
    else if matchesTok tok "ipproto" then
      match rest with
      | [] => .abort Err.incomplete
      | v :: rest2 =>
        match db v with
        | some pr => fou_scan db rest2 { st with ipproto := pr % 256, ipproto_set := true }
        | none =>
          match get_u8 v with
          | none => .abort (Err.invarg "invalid ipproto" v)
          | some pr =>
            if pr = 0 then .abort (Err.invarg "invalid ipproto" v)
            else fou_scan db rest2 { st with ipproto := pr, ipproto_set := true }
    else if matchesTok tok "gue" then
      fou_scan db rest { st with gue_set := true }
    else if matchesTok tok "-6" then
      fou_scan db rest { st with family := AF_INET6 }
    else
      .abort (Err.usage tok)

/-- The post-scan checks and attribute appends of fou_parse_opt
(src/ip/ipfou.c:89-113): missing port, missing ipproto/gue on add, and
ipproto+gue both set each return -1 with the buffer untouched; on
success the port (already network order), type, family and optionally
ipproto attributes are appended. -/
def fou_post (st : FouSt) (n : List Attr) (adding : Bool) : ParseOutcome :=
  if st.port_set = false then .fail n
  else if st.ipproto_set = false && st.gue_set = false && adding then .fail n
  else if st.ipproto_set && st.gue_set then .fail n
  else
    let ty := if st.gue_set then FOU_ENCAP_GUE else FOU_ENCAP_DIRECT
    let base := n ++ [Attr.a16 FOU_ATTR_PORT st.port, Attr.a8 FOU_ATTR_TYPE ty,
                      Attr.a8 FOU_ATTR_AF st.family]
    .ok (if st.ipproto_set then base ++ [Attr.a8 FOU_ATTR_IPPROTO st.ipproto] else base)

/-- fou_parse_opt (src/ip/ipfou.c:48-114): scan the tokens, then run
the post-scan checks and appends. -/
def fou_parse_opt (db : String → Option Nat) (tokens : List String)
    (n : List Attr) (adding : Bool) : ParseOutcome :=
  match fou_scan db tokens fouInit with
  | .abort e => .abort e
  | .done st => fou_post st n adding

/-- Modelled from the spec: what reaches the Transport Session.
`talked` means rtnl_talk was invoked with the given attribute payload;
`exited` means the process terminated before any send. -/
inductive TalkOutcome
  | talked (n : List Attr)
  | exited (e : Err)
deriving Repr, DecidableEq

/-- do_add (src/ip/ipfou.c:116-126): builds the request, calls
fou_parse_opt with adding=true and ignores its return value, then
calls rtnl_talk on the request buffer. Only a process-terminating
error inside fou_parse_opt prevents the rtnl_talk call. -/
def do_add (db : String → Option Nat) (tokens : List String) : TalkOutcome :=
  match fou_parse_opt db tokens [] true with
  | .ok n => .talked n
  | .fail n => .talked n
  | .abort e => .exited e

/-- do_del (src/ip/ipfou.c:128-138): same shape as do_add with
adding=false; the fou_parse_opt return value is ignored as well. -/
def do_del (db : String → Option Nat) (tokens : List String) : TalkOutcome :=
  match fou_parse_opt db tokens [] false with
  | .ok n => .talked n
  | .fail n => .talked n
  | .abort e => .exited e

/-- Protocol-name oracle that knows no names: every token falls back
to the numeric parse, as on a system without a protocols database. -/
def dbNone : String → Option Nat := fun _ => none

/-- bridge_slave_parse_on_off (src/ip/iplink_bridge_slave.c:279-294):
the shared boolean helper maps the exact string "on" to byte 1 and the
exact string "off" to byte 0 (strcmp, no abbreviation), appending that
byte as the given attribute type; any other value is an invarg failure
carrying the keyword name, with nothing appended. -/
def bridge_slave_parse_on_off (arg_name arg_val : String) (n : List Attr)
    (ty : Nat) : Except Err (List Attr) :=
  if arg_val = "on" then .ok (n ++ [Attr.a8 ty 1])
  else if arg_val = "off" then .ok (n ++ [Attr.a8 ty 0])
  else .error (Err.invarg "should be \"on\" or \"off\"" arg_name)

/-- bridge_slave_parse_opt (src/ip/iplink_bridge_slave.c:296-409): the
keyword loop, branches in source order. Keywords taking a value consume
the following token (NEXT_ARG aborts when it is missing); `help` and an
unknown keyword print the usage text and return -1 with the buffer as
built so far. -/
def bridge_slave_parse_opt : List String → List Attr → ParseOutcome
  | [], n => .ok n
  | tok :: rest, n =>
    if matchesTok tok "fdb_flush" then
      bridge_slave_parse_opt rest (n ++ [Attr.flag IFLA_BRPORT_FLUSH])
    else if matchesTok tok "state" then
      match rest with
      | [] => .abort Err.incomplete
      | v :: rest2 =>
        match get_u8 v with
        | none => .abort (Err.invarg "state is invalid" v)
        | some s => bridge_slave_parse_opt rest2 (n ++ [Attr.a8 IFLA_BRPORT_STATE s])
    else if matchesTok tok "priority" then
      match rest with
      | [] => .abort Err.incomplete
      | v :: rest2 =>
        match get_u16 v with
        | none => .abort (Err.invarg "priority is invalid" v)
        | some p => bridge_slave_parse_opt rest2 (n ++ [Attr.a16 IFLA_BRPORT_PRIORITY p])
    else if matchesTok tok "cost" then
      match rest with
      | [] => .abort Err.incomplete
      | v :: rest2 =>
        match get_u32 v with
        | none => .abort (Err.invarg "cost is invalid" v)
        | some c => bridge_slave_parse_opt rest2 (n ++ [Attr.a32 IFLA_BRPORT_COST c])
    else if matchesTok tok "hairpin" then
      match rest with
      | [] => .abort Err.incomplete
      | v :: rest2 =>
        match bridge_slave_parse_on_off "hairpin" v n IFLA_BRPORT_MODE with
        | .error e => .abort e
        | .ok n2 => bridge_slave_parse_opt rest2 n2
    else if matchesTok tok "guard" then
      match rest with
      | [] => .abort Err.incomplete
      | v :: rest2 =>
        match bridge_slave_parse_on_off "guard" v n IFLA_BRPORT_GUARD with
        | .error e => .abort e
        | .ok n2 => bridge_slave_parse_opt rest2 n2
    else if matchesTok tok "root_block" then
      match rest with
      | [] => .abort Err.incomplete
      | v :: rest2 =>
        match bridge_slave_parse_on_off "root_block" v n IFLA_BRPORT_PROTECT with
        | .error e => .abort e
        | .ok n2 => bridge_slave_parse_opt rest2 n2
    else if matchesTok tok "fastleave" then
      match rest with
      | [] => .abort Err.incomplete
      | v :: rest2 =>
        match bridge_slave_parse_on_off "fastleave" v n IFLA_BRPORT_FAST_LEAVE with
        | .error e => .abort e
        | .ok n2 => bridge_slave_parse_opt rest2 n2
    else if matchesTok tok "learning" then
      match rest with
      | [] => .abort Err.incomplete
      | v :: rest2 =>
        match bridge_slave_parse_on_off "learning" v n IFLA_BRPORT_LEARNING with
        | .error e => .abort e
        | .ok n2 => bridge_slave_parse_opt rest2 n2
    else if matchesTok tok "flood" then
      match rest with
      | [] => .abort Err.incomplete
      | v :: rest2 =>
        match bridge_slave_parse_on_off "flood" v n IFLA_BRPORT_UNICAST_FLOOD with
        | .error e => .abort e
        | .ok n2 => bridge_slave_parse_opt rest2 n2
    else if matchesTok tok "mcast_flood" then
      match rest with
      | [] => .abort Err.incomplete
      | v :: rest2 =>
        match bridge_slave_parse_on_off "mcast_flood" v n IFLA_BRPORT_MCAST_FLOOD with
        | .error e => .abort e
        | .ok n2 => bridge_slave_parse_opt rest2 n2
    else if matchesTok tok "proxy_arp" then
      match rest with
      | [] => .abort Err.incomplete
      | v :: rest2 =>
        match bridge_slave_parse_on_off "proxy_arp" v n IFLA_BRPORT_PROXYARP with
        | .error e => .abort e
        | .ok n2 => bridge_slave_parse_opt rest2 n2
    else if matchesTok tok "proxy_arp_wifi" then
      match rest with
      | [] => .abort Err.incomplete
      | v :: rest2 =>
        match bridge_slave_parse_on_off "proxy_arp_wifi" v n IFLA_BRPORT_PROXYARP_WIFI with
        | .error e => .abort e
        | .ok n2 => bridge_slave_parse_opt rest2 n2
    else if matchesTok tok "mcast_router" then
      match rest with
      | [] => .abort Err.incomplete
      | v :: rest2 =>
        match get_u8 v with
        | none => .abort (Err.invarg "invalid mcast_router" v)
        | some r => bridge_slave_parse_opt rest2 (n ++ [Attr.a8 IFLA_BRPORT_MULTICAST_ROUTER r])
    else if matchesTok tok "mcast_fast_leave" then
      match rest with
      | [] => .abort Err.incomplete
      | v :: rest2 =>
        match bridge_slave_parse_on_off "mcast_fast_leave" v n IFLA_BRPORT_FAST_LEAVE with
        | .error e => .abort e
        | .ok n2 => bridge_slave_parse_opt rest2 n2
    else if matchesTok tok "neigh_suppress" then
      match rest with
      | [] => .abort Err.incomplete
      | v :: rest2 =>
        match bridge_slave_parse_on_off "neigh_suppress" v n IFLA_BRPORT_NEIGH_SUPPRESS with
        | .error e => .abort e
        | .ok n2 => bridge_slave_parse_opt rest2 n2
    else if matchesTok tok "group_fwd_mask" then
      match rest with
      | [] => .abort Err.incomplete
      | v :: rest2 =>
        match get_u16 v with
        | none => .abort (Err.invarg "invalid group_fwd_mask" v)
        | some m => bridge_slave_parse_opt rest2 (n ++ [Attr.a16 IFLA_BRPORT_GROUP_FWD_MASK m])
    else if matchesTok tok "vlan_tunnel" then
      match rest with
      | [] => .abort Err.incomplete
      | v :: rest2 =>
        match bridge_slave_parse_on_off "vlan_tunnel" v n IFLA_BRPORT_VLAN_TUNNEL with
        | .error e => .abort e
        | .ok n2 => bridge_slave_parse_opt rest2 n2
    else if matchesTok tok "help" then
      .fail n
    else
      .fail n

/-! Renderers of the decode path. -/

/-- Hexadecimal digit character, lowercase as printf %x produces. -/
def hexDigitChar (d : Nat) : Char :=
  if d < 10 then Char.ofNat (48 + d) else Char.ofNat (87 + d)

/-- Hexadecimal digits of `v`, most significant first; the fuel of 8
digits covers the unsigned int range printf %x is applied to. -/
def natToHexCore : Nat → Nat → List Char
  | 0, _ => []
  | fuel + 1, v => if v = 0 then [] else natToHexCore fuel (v / 16) ++ [hexDigitChar (v % 16)]

/-- Rendering of printf "%x": lowercase hexadecimal, no leading
zeros, "0" for zero. -/
def natToHex (v : Nat) : String :=
  if v = 0 then "0" else String.mk (natToHexCore 8 v)

/-- fwd_mask_tbl (src/ip/iplink_bridge_slave.c:59-63): sparse name
table for the 16 forwarding-mask bits; only bits 0, 2 and 14 have
names. -/
def fwd_mask_tbl (i : Nat) : Option String :=
  if i = 0 then some "stp"
  else if i = 2 then some "lacp"
  else if i = 14 then some "lldp"
  else none

/-- Text emitted for one set bit of the forwarding mask: the table
name when present, otherwise the hexadecimal form of 1 shifted left by
the bit index (snprintf "0x%x", 1 << i). -/
def fwdMaskPiece (i : Nat) : String :=
  match fwd_mask_tbl i with
  | some s => s
  | none => "0x" ++ natToHex (2 ^ i)

/-- The shifting loop of _bitmask2str
(src/ip/iplink_bridge_slave.c:106-115): walks the mask bit by bit
while it is non-zero, collecting one piece per set bit in ascending
bit order. -/
def bits2pieces (mask i : Nat) : List String :=
  if h : mask = 0 then []
  else (if mask % 2 = 1 then [fwdMaskPiece i] else []) ++ bits2pieces (mask / 2) (i + 1)
termination_by mask
decreasing_by exact Nat.div_lt_self (Nat.pos_of_ne_zero h) (by norm_num)

/-- _bitmask2str (src/ip/iplink_bridge_slave.c:101-121): the collected
pieces are comma-joined (the C writes each piece with a trailing comma
and overwrites the last comma); a mask with no set bits renders as the
literal "0x0". -/
def _bitmask2str (mask : Nat) : String :=
  let ps := bits2pieces mask 0
  if ps.isEmpty then "0x0" else String.intercalate "," ps

/-- Modelled from the spec: the bitset-rendering contract stated in
words (forwarding-mask value 0 renders exactly as "0x0"; each set bit
renders its symbolic name when the table has one and the hexadecimal
flag form otherwise; pieces are comma-joined in ascending bit order
with no trailing separator), written independently of the shifting
loop as a filter over the 16 bit positions. -/
def bitmaskSpecStr (mask : Nat) : String :=
  if mask = 0 then "0x0"
  else String.intercalate ","
    ((List.range 16).filterMap
      (fun j => if mask.testBit j then some (fwdMaskPiece j) else none))

/-- Output of print_portstate: either a symbolic state name or the raw
numeric fallback. -/
inductive StateOut
  | sym (s : String)
  | num (v : Nat)
deriving Repr, DecidableEq

/-- port_states (src/ip/iplink_bridge_slave.c:51-57): the dense name
table for the five known bridge-port states. -/
def port_states : List String :=
  ["disabled", "listening", "learning", "forwarding", "blocking"]

/-- print_portstate (src/ip/iplink_bridge_slave.c:65-74): states up to
BR_STATE_BLOCKING render their table name, larger values render the
raw number. -/
def print_portstate (state : Nat) : StateOut :=
  if state ≤ BR_STATE_BLOCKING then .sym (port_states.getD state "")
  else .num state

/-! Decode path of the FOU show command. -/

/-- Decoded attribute table of one FOU mapping as print_fou_mapping
reads it: presence or absence of the four attributes it examines. -/
structure FouTb where
  port : Option Nat
  ty : Option Nat
  ipproto : Option Nat
  af : Option Nat
deriving Repr, DecidableEq

/-- One field printed by print_fou_mapping. -/
inductive FouItem
  | port (p : Nat)
  | gue
  | ipproto (v : Nat)
  | family (f : Nat)
deriving Repr, DecidableEq

/-- print_fou_mapping (src/ip/ipfou.c:157-180), as the sequence of
fields it prints: the port (converted by ntohs), then either the gue
marker (when the type attribute is present and equals FOU_ENCAP_GUE)
or else the ipproto value when that attribute is present, then the
address family when present. -/
def print_fou_mapping (tb : FouTb) : List FouItem :=
  (match tb.port with
   | some v => [FouItem.port (ntohs16 v)]
   | none => []) ++
  (if tb.ty = some FOU_ENCAP_GUE then [FouItem.gue]
   else match tb.ipproto with
        | some v => [FouItem.ipproto v]
        | none => []) ++
  (match tb.af with
   | some f => [FouItem.family f]
   | none => [])

/-! Claim theorems. -/

/-- C1: the claim states that every fou_parse_opt failure (missing
port, invalid port, ipproto and gue both set, missing ipproto/gue on
add) short-circuits do_add and do_del before rtnl_talk is called. The
code contradicts this: do_add and do_del ignore the fou_parse_opt
return value, so on a missing-port failure (plain return -1) the
request is still handed to rtnl_talk, here at the inputs "add gue" and
a bare "del". -/
theorem c1_parse_failure_still_talks :
    fou_parse_opt dbNone ["gue"] [] true = .fail [] ∧
    do_add dbNone ["gue"] = .talked [] ∧
    fou_parse_opt dbNone [] [] false = .fail [] ∧
    do_del dbNone [] = .talked [] :=
  ⟨by decide, by decide, by decide, by decide⟩

/-- C2: whenever the token scan of a FOU add finishes with both the
ipproto flag and the gue flag set, fou_parse_opt returns the failure
code with the message buffer exactly as it was passed in: no attribute
has been appended. -/
theorem c2_ipproto_gue_fails_unchanged (db : String → Option Nat)
    (tokens : List String) (n : List Attr) (st : FouSt)
    (hscan : fou_scan db tokens fouInit = .done st)
    (hip : st.ipproto_set = true) (hgue : st.gue_set = true) :
    fou_parse_opt db tokens n true = .fail n := by
  unfold fou_parse_opt
  rw [hscan]
  unfold fou_post
  rcases hps : st.port_set <;> simp [hps, hip, hgue]

/-- Witness for C2 at the token sequence port 5555 ipproto 17 gue:
the scan sets both flags and fou_parse_opt fails leaving the empty
buffer empty. -/
theorem c2_witness :
    fou_scan dbNone ["port", "5555", "ipproto", "17", "gue"] fouInit
        = .done ⟨45845, true, 17, true, true, 2⟩ ∧
    fou_parse_opt dbNone ["port", "5555", "ipproto", "17", "gue"] [] true = .fail [] :=
  ⟨by decide,
   c2_ipproto_gue_fails_unchanged dbNone ["port", "5555", "ipproto", "17", "gue"] []
     ⟨45845, true, 17, true, true, 2⟩ (by decide) rfl rfl⟩

/-- C3: whenever the token scan finishes without having consumed a
port keyword (the port_set flag, set only by the port branch, is still
false), fou_parse_opt returns the failure code, for adds and deletes
alike, with the buffer untouched. -/
theorem c3_missing_port_fails (db : String → Option Nat)
    (tokens : List String) (n : List Attr) (adding : Bool) (st : FouSt)
    (hscan : fou_scan db tokens fouInit = .done st)
    (hport : st.port_set = false) :
    fou_parse_opt db tokens n adding = .fail n := by
  unfold fou_parse_opt
  rw [hscan]
  unfold fou_post
  simp [hport]

/-- Witness for C3 at the token sequence consisting of the single
keyword gue, on the add path. -/
theorem c3_witness :
    fou_scan dbNone ["gue"] fouInit = .done ⟨0, false, 0, false, true, 2⟩ ∧
    fou_parse_opt dbNone ["gue"] [] true = .fail [] :=
  ⟨by decide,
   c3_missing_port_fails dbNone ["gue"] [] true
     ⟨0, false, 0, false, true, 2⟩ (by decide) rfl⟩

/-- C4 counterexample: the claim says the state keyword accepts only
values 0..4, failing otherwise; but the code accepts any 8-bit value,
so state 7 parses successfully and appends 7, which is outside the
enum range. -/
theorem c4_counterexample :
    bridge_slave_parse_opt ["state", "7"] [] = .ok [Attr.a8 IFLA_BRPORT_STATE 7] ∧
    BR_STATE_BLOCKING < 7 :=
  ⟨by decide, by decide⟩

/-- C4 amended: the state keyword is parsed with the generic 8-bit
converter: parsing succeeds and appends the state attribute for every
token that converts as an integer 0..255 (the 0..4 enum range is not
enforced at parse time), and fails with the invalid-argument error
"state is invalid" exactly when the token is not a valid 8-bit
unsigned integer. -/
theorem c4_state_is_generic_u8 (s : String) (n : List Attr) :
    (∀ v, get_u8 s = some v →
      bridge_slave_parse_opt ["state", s] n = .ok (n ++ [Attr.a8 IFLA_BRPORT_STATE v])) ∧
    (∀ v, get_u8 s = some v → v ≤ 255) ∧
    (get_u8 s = none →
      bridge_slave_parse_opt ["state", s] n = .abort (Err.invarg "state is invalid" s)) := by
  refine ⟨?_, ?_, ?_⟩
  · intro v hv
    simp [bridge_slave_parse_opt, matchesTok, isPrefixOfChars, hv]
  · intro v hv
    unfold get_u8 at hv
    rcases h : strtoul0 s with _ | w <;> rw [h] at hv
    · cases hv
    · dsimp only at hv
      by_cases hw : w ≤ 255
      · rw [if_pos hw] at hv
        injection hv with hv
        omega
      · rw [if_neg hw] at hv
        cases hv
  · intro hv
    simp [bridge_slave_parse_opt, matchesTok, isPrefixOfChars, hv]

/-- Witness for C4 at the out-of-enum value 7 (accepted) and the
non-numeric token abc (rejected with invarg). -/
theorem c4_witness :
    bridge_slave_parse_opt ["state", "7"] [] = .ok ([] ++ [Attr.a8 IFLA_BRPORT_STATE 7]) ∧
    bridge_slave_parse_opt ["state", "abc"] [] = .abort (Err.invarg "state is invalid" "abc") :=
  ⟨(c4_state_is_generic_u8 "7" []).1 7 (by decide),
   (c4_state_is_generic_u8 "abc" []).2.2 (by decide)⟩

/-- C5: for every keyword name and value token, the shared boolean
helper maps exactly "on" to appending byte 1 of the given attribute
type, exactly "off" to appending byte 0, and any other token to an
invalid-argument failure naming the keyword, with nothing appended. -/
theorem c5_on_off_helper (arg_name arg_val : String) (n : List Attr) (ty : Nat) :
    (arg_val = "on" →
      bridge_slave_parse_on_off arg_name arg_val n ty = .ok (n ++ [Attr.a8 ty 1])) ∧
    (arg_val = "off" →
      bridge_slave_parse_on_off arg_name arg_val n ty = .ok (n ++ [Attr.a8 ty 0])) ∧
    (arg_val ≠ "on" → arg_val ≠ "off" →
      bridge_slave_parse_on_off arg_name arg_val n ty
        = .error (Err.invarg "should be \"on\" or \"off\"" arg_name)) := by
  refine ⟨?_, ?_, ?_⟩
  · rintro rfl; rfl
  · rintro rfl; rfl
  · intro h1 h2
    unfold bridge_slave_parse_on_off
    rw [if_neg h1, if_neg h2]

/-- Witness for C5 on the guard keyword with the values on and zzz. -/
theorem c5_witness :
    bridge_slave_parse_on_off "guard" "on" [] IFLA_BRPORT_GUARD
        = .ok ([] ++ [Attr.a8 IFLA_BRPORT_GUARD 1]) ∧
    bridge_slave_parse_on_off "guard" "zzz" [] IFLA_BRPORT_GUARD
        = .error (Err.invarg "should be \"on\" or \"off\"" "guard") :=
  ⟨(c5_on_off_helper "guard" "on" [] IFLA_BRPORT_GUARD).1 rfl,
   (c5_on_off_helper "guard" "zzz" [] IFLA_BRPORT_GUARD).2.2 (by decide) (by decide)⟩

/-- The shifting loop of _bitmask2str collects exactly one piece per
set bit among the first k bit positions, in ascending order, provided
the mask fits in k bits; the pieces are indexed from the starting bit
offset i. -/
theorem bits2pieces_eq_filterMap :
    ∀ (k : Nat), ∀ (mask i : Nat), mask < 2 ^ k →
      bits2pieces mask i = (List.range k).filterMap
        (fun j => if mask.testBit j then some (fwdMaskPiece (i + j)) else none) := by
  intro k
  induction k with
  | zero =>
    intro mask i h
    have h0 : mask = 0 := by simpa using h
    subst h0
    rw [bits2pieces]
    simp
  | succ k ih =>
    intro mask i h
    by_cases h0 : mask = 0
    · subst h0
      rw [bits2pieces]
      simp [Nat.zero_testBit]
    · rw [bits2pieces, dif_neg h0]
      have hlt : mask / 2 < 2 ^ k := by
        apply Nat.div_lt_of_lt_mul
        calc mask < 2 ^ (k + 1) := h
          _ = 2 * 2 ^ k := by ring
      rw [ih (mask / 2) (i + 1) hlt]
      rw [List.range_succ_eq_map]
      rw [List.filterMap_cons]
      rw [List.filterMap_map]
      have htb0 : mask.testBit 0 = decide (mask % 2 = 1) := Nat.testBit_zero mask
      have htbs : ∀ j : Nat, mask.testBit (j + 1) = (mask / 2).testBit j := by
        intro j
        exact Nat.testBit_add_one mask j
      have hfun :
          ((fun j => if mask.testBit j then some (fwdMaskPiece (i + j)) else none) ∘ Nat.succ)
            = (fun j => if (mask / 2).testBit j then some (fwdMaskPiece (i + 1 + j)) else none) := by
        funext j
        simp only [Function.comp_apply, Nat.succ_eq_add_one, htbs j]
        have hidx : i + (j + 1) = i + 1 + j := by omega
        rw [hidx]
      rw [hfun]
      rcases Nat.mod_two_eq_zero_or_one mask with hm | hm
      · have : mask.testBit 0 = false := by rw [htb0, hm]; decide
        simp [this, hm]
      · have : mask.testBit 0 = true := by rw [htb0, hm]; decide
        simp [this, hm]

/-- A non-zero mask always yields at least one piece: its lowest set
bit produces one. -/
theorem bits2pieces_ne_nil :
    ∀ mask : Nat, mask ≠ 0 → ∀ i : Nat, bits2pieces mask i ≠ [] := by
  intro mask
  induction mask using Nat.strong_induction_on with
  | _ mask ih =>
    intro h0 i
    rw [bits2pieces, dif_neg h0]
    rcases Nat.mod_two_eq_zero_or_one mask with hm | hm
    · have h2 : mask / 2 ≠ 0 := by omega
      have hrec := ih (mask / 2) (Nat.div_lt_self (Nat.pos_of_ne_zero h0) (by norm_num)) h2 (i + 1)
      simp only [hm]
      simp [List.append_eq_nil, hrec]
    · simp [hm]

/-- C6: for every 16-bit forwarding-mask value, the shifting loop of
_bitmask2str renders exactly what the spec describes: 0 as the literal
"0x0", each set bit as its table name (bit 0 stp, bit 2 lacp, bit 14
lldp) or, unmapped, as the hexadecimal form of 1 shifted left by the
bit index, all joined by commas in ascending bit order with no
trailing separator. -/
theorem c6_bitmask_render (mask : Nat) (h : mask < 65536) :
    _bitmask2str mask = bitmaskSpecStr mask := by
  by_cases h0 : mask = 0
  · subst h0
    unfold _bitmask2str bitmaskSpecStr
    rw [bits2pieces]
    simp
  · unfold _bitmask2str bitmaskSpecStr
    rw [if_neg h0]
    have heq := bits2pieces_eq_filterMap 16 mask 0 (by norm_num at h ⊢; exact h)
    have hne := bits2pieces_ne_nil mask h0 0
    rw [heq] at hne ⊢
    simp only [Nat.zero_add] at hne ⊢
    rw [if_neg (by simpa [List.isEmpty_iff] using hne)]

/-- Witness for C6 at mask 37 (bits 0, 2 and 5 set: two named bits and
one unmapped bit). -/
theorem c6_witness :
    37 < 65536 ∧ _bitmask2str 37 = bitmaskSpecStr 37 :=
  ⟨by decide, c6_bitmask_render 37 (by decide)⟩

/-- C7: for every 8-bit port state value, print_portstate renders the
symbolic names disabled/listening/learning/forwarding/blocking for the
enum range 0..4 and falls back to the raw number above 4; being a
total function it never fails. -/
theorem c7_portstate_render (s : Nat) (hs : s < 256) :
    (s = 0 → print_portstate s = .sym "disabled") ∧
    (s = 1 → print_portstate s = .sym "listening") ∧
    (s = 2 → print_portstate s = .sym "learning") ∧
    (s = 3 → print_portstate s = .sym "forwarding") ∧
    (s = 4 → print_portstate s = .sym "blocking") ∧
    (BR_STATE_BLOCKING < s → print_portstate s = .num s) := by
  refine ⟨?_, ?_, ?_, ?_, ?_, ?_⟩ <;> intro h
  · subst h; decide
  · subst h; decide
  · subst h; decide
  · subst h; decide
  · subst h; decide
  · unfold print_portstate
    rw [if_neg (by unfold BR_STATE_BLOCKING at h ⊢; omega)]

/-- Witness for C7 at the in-range state 2 and the out-of-range
state 9. -/
theorem c7_witness :
    print_portstate 2 = .sym "learning" ∧ print_portstate 9 = .num 9 :=
  ⟨(c7_portstate_render 2 (by decide)).2.2.1 rfl,
   (c7_portstate_render 9 (by decide)).2.2.2.2.2 (by decide)⟩

/-- C8: the keywords fastleave and mcast_fast_leave are aliases: for
every valid on/off value and any remaining tokens and buffer, parsing
one keyword produces exactly the same outcome as parsing the other,
because both append IFLA_BRPORT_FAST_LEAVE with the same byte. -/
theorem c8_fastleave_alias (v : String) (rest : List String) (n : List Attr)
    (h : v = "on" ∨ v = "off") :
    bridge_slave_parse_opt ("fastleave" :: v :: rest) n
      = bridge_slave_parse_opt ("mcast_fast_leave" :: v :: rest) n := by
  rcases h with rfl | rfl <;>
    simp [bridge_slave_parse_opt, matchesTok, isPrefixOfChars, bridge_slave_parse_on_off]

/-- Witness for C8 at the value on with no further tokens. -/
theorem c8_witness :
    bridge_slave_parse_opt ["fastleave", "on"] []
      = bridge_slave_parse_opt ["mcast_fast_leave", "on"] [] :=
  c8_fastleave_alias "on" [] [] (Or.inl rfl)

/-- C9: every port value 1..65535 round-trips through the network-order
encode of the parse path (htons) followed by the network-to-host decode
of the display path (ntohs). -/
theorem c9_port_roundtrip (p : Nat) (h1 : 1 ≤ p) (h2 : p ≤ 65535) :
    ntohs16 (htons16 p) = p := by
  obtain ⟨a, b, hb, rfl⟩ : ∃ a b, b < 256 ∧ p = 256 * a + b :=
    ⟨p / 256, p % 256, Nat.mod_lt _ (by norm_num), (Nat.div_add_mod p 256).symm⟩
  have ha : a < 256 := by omega
  have e1 : ∀ x y : Nat, x < 256 → y < 256 → htons16 (256 * x + y) = y * 256 + x := by
    intro x y hx hy; unfold htons16; omega
  have e2 : ∀ x y : Nat, x < 256 → y < 256 → ntohs16 (y * 256 + x) = 256 * x + y := by
    intro x y hx hy; unfold ntohs16; omega
  rw [e1 a b ha hb, e2 a b ha hb]

/-- Witness for C9 at port 5555. -/
theorem c9_witness :
    1 ≤ 5555 ∧ 5555 ≤ 65535 ∧ ntohs16 (htons16 5555) = 5555 :=
  ⟨by decide, by decide, c9_port_roundtrip 5555 (by decide) (by decide)⟩

/-- C10: in the print_fou_mapping output, the gue marker appears
exactly when the type attribute is present and equals FOU_ENCAP_GUE,
an ipproto field appears exactly when that condition fails and the
ipproto attribute is present, and the two never appear together. -/
theorem c10_gue_ipproto_exclusive (tb : FouTb) :
    (FouItem.gue ∈ print_fou_mapping tb ↔ tb.ty = some FOU_ENCAP_GUE) ∧
    (∀ v, FouItem.ipproto v ∈ print_fou_mapping tb ↔
        (tb.ty ≠ some FOU_ENCAP_GUE ∧ tb.ipproto = some v)) ∧
    (FouItem.gue ∈ print_fou_mapping tb →
      ∀ v, FouItem.ipproto v ∉ print_fou_mapping tb) := by
  obtain ⟨p, t, ip, af⟩ := tb
  unfold print_fou_mapping
  by_cases ht : t = some FOU_ENCAP_GUE <;>
    rcases p with _ | p <;> rcases ip with _ | ip <;> rcases af with _ | af <;>
      simp [ht, eq_comm]

/-- Witness for C10 at a table holding both the GUE type and an
ipproto attribute: gue wins and the ipproto value is suppressed. -/
theorem c10_witness :
    FouItem.ipproto 7 ∉ print_fou_mapping ⟨some 100, some FOU_ENCAP_GUE, some 7, none⟩ :=
  (c10_gue_ipproto_exclusive ⟨some 100, some FOU_ENCAP_GUE, some 7, none⟩).2.2 (by decide) 7

end Spec2Proof
